import Mathlib

/-!
Verification of the query-understanding and ranking engine of the
Practice-web-navigator repository (backend/app): the attribute extractor and
constraint parser (`services/utils.py`, `agents/parser_agent.py`), the scorer,
deduplicator and ranker (`services/scoring.py`), and the pipeline wiring
(`graph/nodes.py`, `pipelines/search_pipeline.py`).

Modelling conventions:
- Python `str` is modelled as `List Char` (`Str`); `str.lower` is modelled for
  the ASCII range, which covers the lexicons and unit patterns of the code.
- Python `float` arithmetic is modelled over `ℚ`; the numeric literals of the
  code (0.6, 0.45, ...) are exact rationals, and `float`'s rounding is not
  modelled.
- The regular expressions of the code are small and fixed, so each one is
  embedded as a dedicated matcher with Python `re.search` semantics: scan the
  text left to right and, at each position, run the pattern with backtracking
  (greedy counted repetition tried from the largest feasible count downwards,
  optional groups tried non-empty first); the first position that matches wins
  and the matcher returns capture group 1.
- `rapidfuzz.fuzz.token_set_ratio` and `math.tanh` are external libraries; the
  functions that call them are parametrised by them, so theorems about those
  functions hold for every instantiation, in particular the real one.
-/

abbrev Str := List Char

/-- ASCII `str.lower`: map A-Z to a-z, leave everything else unchanged. -/
def lowerChar (c : Char) : Char :=
  if 'A' ≤ c ∧ c ≤ 'Z' then Char.ofNat (c.toNat + 32) else c

def lowerStr (s : Str) : Str := s.map lowerChar

/-- Python regex `\w` (ASCII range): letters, digits, underscore. -/
def isWordChar (c : Char) : Bool :=
  c.isAlpha || c.isDigit || c = '_'

/-- Python regex `\s` (ASCII range): space, tab, newline, CR, FF, VT. -/
def isSpaceChar (c : Char) : Bool :=
  c = ' ' || c = '\t' || c = '\n' || c = '\r' || c = '\x0b' || c = '\x0c'

/-- Python `needle in hay`: contiguous substring test. -/
def substr (needle hay : Str) : Bool :=
  match hay with
  | [] => needle.isEmpty
  | _ :: t => needle.isPrefixOf hay || substr needle t

/-- Python `str.strip()` (ASCII whitespace). -/
def stripStr (s : Str) : Str :=
  ((s.dropWhile isSpaceChar).reverse.dropWhile isSpaceChar).reverse

/-- `list(dict.fromkeys(xs))`: remove duplicates keeping the first occurrence. -/
def firstSeenAux (seen : List Str) : List Str → List Str
  | [] => []
  | x :: xs =>
    if x ∈ seen then firstSeenAux seen xs
    else x :: firstSeenAux (x :: seen) xs

def firstSeen (xs : List Str) : List Str := firstSeenAux [] xs

/-!  ## A tiny regex engine for the fixed patterns of the code

A matcher `m : Option Char → Str → Option Str` is run at one position: it gets
the character preceding the position (`none` at the start of the text, used for
`\b`) and the rest of the text, and returns capture group 1 on success.
`reSearch` is `re.search`: try every position left to right.  -/

def reSearchAux (m : Option Char → Str → Option Str) :
    Option Char → Str → Option Str
  | prev, [] => m prev []
  | prev, c :: cs =>
    match m prev (c :: cs) with
    | some g => some g
    | none => reSearchAux m (some c) cs

def reSearch (m : Option Char → Str → Option Str) (t : Str) : Option Str :=
  reSearchAux m none t

/-- `\b` before a word character: start of text or a non-word char before. -/
def boundaryBefore (prev : Option Char) : Bool :=
  match prev with
  | none => true
  | some c => ¬ isWordChar c

/-- `\b` after a word character: end of text or a non-word char next. -/
def boundaryAfter (rest : Str) : Bool :=
  match rest with
  | [] => true
  | c :: _ => ¬ isWordChar c

/-- `\s*`: consume the maximal whitespace run (what the backtracking engine
commits to whenever the next pattern element cannot match whitespace, which is
the case in every pattern of the code). -/
def dropSpaces (s : Str) : Str := s.dropWhile isSpaceChar

/-- Greedy counted digit repetition `\d{lo,hi}` followed by a continuation:
try `k = hi, hi-1, ..., lo` digits (the engine only ever consumes actual
digits, so `hi` is pre-capped at the digit run length by `greedyDigits`);
`cont` returns the rest of the capture group on success. -/
def greedyDigitsGo (s : Str) (cont : Str → Option Str) (lo : Nat) :
    Nat → Option Str
  | 0 =>
    if lo = 0 then cont s else none
  | k + 1 =>
    if lo ≤ k + 1 then
      match cont (s.drop (k + 1)) with
      | some g => some (s.take (k + 1) ++ g)
      | none => greedyDigitsGo s cont lo k
    else none

def greedyDigits (lo hi : Nat) (s : Str) (cont : Str → Option Str) :
    Option Str :=
  greedyDigitsGo s cont lo (min hi (s.takeWhile Char.isDigit).length)

/-- Literal word match (the patterns are run on lower-cased text, so the
`re.I` flag collapses to matching the lower-case literal). -/
def litMatch (lit : Str) (s : Str) : Option Str :=
  if lit.isPrefixOf s then some (s.drop lit.length) else none

/-- Continuation: `\s*` + literal + `\b` (unit ends in a word character). -/
def unitCont (unit : Str) (s : Str) : Option Str :=
  match litMatch unit (dropSpaces s) with
  | some rest => if boundaryAfter rest then some [] else none
  | none => none

/-- `RX_RAM_GB = \b(\d{1,2})\s*GB(?:\s*RAM)?\b` (utils.py). -/
def matchRamGB (prev : Option Char) (s : Str) : Option Str :=
  if boundaryBefore prev then
    greedyDigits 1 2 s (fun rest =>
      match litMatch "gb".data (dropSpaces rest) with
      | some afterGb =>
        -- optional `\s*RAM`, tried non-empty first, then `\b`
        (match litMatch "ram".data (dropSpaces afterGb) with
         | some afterRam =>
           if boundaryAfter afterRam then some []
           else if boundaryAfter afterGb then some [] else none
         | none => if boundaryAfter afterGb then some [] else none)
      | none => none)
  else none

/-- `RX_STORAGE_GB = \b(\d{2,4})\s*GB\b` (utils.py). -/
def matchStorageGB (prev : Option Char) (s : Str) : Option Str :=
  if boundaryBefore prev then greedyDigits 2 4 s (unitCont "gb".data) else none

/-- `RX_STORAGE_TB = \b(\d(?:\.\d)?)\s*TB\b` (utils.py): one digit, an
optional `.digit` (tried first), then the unit. -/
def matchStorageTB (prev : Option Char) (s : Str) : Option Str :=
  if boundaryBefore prev then
    match s with
    | d :: rest =>
      if d.isDigit then
        match rest with
        | '.' :: d2 :: rest2 =>
          if d2.isDigit then
            match unitCont "tb".data rest2 with
            | some _ => some [d, '.', d2]
            | none =>
              match unitCont "tb".data rest with
              | some _ => some [d]
              | none => none
          else
            match unitCont "tb".data rest with
            | some _ => some [d]
            | none => none
        | _ =>
          match unitCont "tb".data rest with
          | some _ => some [d]
          | none => none
      else none
    | [] => none
  else none

/-- `RX_BATTERY_MAH = \b(\d{3,5})\s*mAh\b` (utils.py). -/
def matchBatteryMah (prev : Option Char) (s : Str) : Option Str :=
  if boundaryBefore prev then greedyDigits 3 5 s (unitCont "mah".data) else none

/-- One alternative of `RX_REFRESH_HZ`: the literal number then `\s*Hz\b`. -/
def refreshAlt (lit : Str) (s : Str) : Option Str :=
  match litMatch lit s with
  | some rest =>
    match unitCont "hz".data rest with
    | some _ => some lit
    | none => none
  | none => none

/-- `RX_REFRESH_HZ = \b(60|90|120|144|165|240)\s*Hz\b` (utils.py):
alternatives tried in pattern order. -/
def matchRefreshHz (prev : Option Char) (s : Str) : Option Str :=
  if boundaryBefore prev then
    (refreshAlt "60".data s).orElse (fun _ =>
    (refreshAlt "90".data s).orElse (fun _ =>
    (refreshAlt "120".data s).orElse (fun _ =>
    (refreshAlt "144".data s).orElse (fun _ =>
    (refreshAlt "165".data s).orElse (fun _ =>
    refreshAlt "240".data s)))))
  else none

/-- After the two screen digits: `(?:\.\d)?\s*inch(?:es)?\b` with the
optional fraction tried first; returns the fraction part of the group. -/
def screenCont (s : Str) : Option Str :=
  let unit : Str → Option Str := fun rest =>
    match litMatch "inch".data (dropSpaces rest) with
    | some afterInch =>
      (match litMatch "es".data afterInch with
       | some afterEs =>
         if boundaryAfter afterEs then some []
         else if boundaryAfter afterInch then some [] else none
       | none => if boundaryAfter afterInch then some [] else none)
    | none => none
  match s with
  | '.' :: d :: rest =>
    if d.isDigit then
      match unit rest with
      | some _ => some ['.', d]
      | none => (unit s).map (fun _ => [])
    else (unit s).map (fun _ => [])
  | _ => (unit s).map (fun _ => [])

/-- `RX_SCREEN_IN = \b(\d{2}(?:\.\d)?)\s*inch(?:es)?\b` (utils.py). -/
def matchScreenIn (prev : Option Char) (s : Str) : Option Str :=
  if boundaryBefore prev then greedyDigits 2 2 s screenCont else none

/-- `\buk\s*(\d{1,2})\b` and the us/eu variants (utils.py / parser_agent.py). -/
def matchSizePat (word : Str) (prev : Option Char) (s : Str) : Option Str :=
  if boundaryBefore prev then
    match litMatch word s with
    | some rest =>
      greedyDigits 1 2 (dropSpaces rest)
        (fun r => if boundaryAfter r then some [] else none)
    | none => none
  else none

/-- `_rx_num(unit) = \b(\d+(?:\.\d+)?)\s*unit\b` (utils.py / parser_agent.py):
unbounded greedy digits, optional `.digits+` fraction tried first (inner
digits greedy), then the unit. -/
def matchNumUnit (unit : Str) (prev : Option Char) (s : Str) : Option Str :=
  if boundaryBefore prev then
    greedyDigits 1 (s.takeWhile Char.isDigit).length s (fun rest =>
      match rest with
      | '.' :: rest2 =>
        let fracLen := (rest2.takeWhile Char.isDigit).length
        (match greedyDigits 1 fracLen rest2 (unitCont unit) with
         | some fdigits => some ('.' :: fdigits)
         | none => (unitCont unit rest).map (fun _ => []))
      | _ => (unitCont unit rest).map (fun _ => []))
  else none

/-- One unit alternative of `RX_LITRE`: `\s*` ran before; the literal then
`\b`; alternatives `l`, `litre`, `liters`, `litres` in pattern order. -/
def litreUnitCont (s : Str) : Option Str :=
  let t := dropSpaces s
  let alt : Str → Option Str := fun u =>
    match litMatch u t with
    | some rest => if boundaryAfter rest then some [] else none
    | none => none
  (alt "l".data).orElse (fun _ =>
  (alt "litre".data).orElse (fun _ =>
  (alt "liters".data).orElse (fun _ =>
  alt "litres".data)))

/-- `RX_LITRE = \b(\d{1,3})(?:\.?\d*)\s*(?:L|Litre|Liters|Litres)\b`
(utils.py): the group is only the 1-3 digits; the non-captured `(?:\.?\d*)`
tries a dot first, then a maximal digit run (the unit starts with a letter,
so only the maximal run can be followed by `\s*` and the unit). -/
def matchLitre (prev : Option Char) (s : Str) : Option Str :=
  if boundaryBefore prev then
    greedyDigits 1 3 s (fun rest =>
      let noDot :=
        (litreUnitCont (rest.dropWhile Char.isDigit)).map (fun _ => [])
      match rest with
      | '.' :: rest2 =>
        (match litreUnitCont (rest2.dropWhile Char.isDigit) with
         | some _ => some []
         | none => noDot)
      | _ => noDot)
  else none

/-! ## Values of the Python dicts (attrs / filters)

The code stores strings and lists of strings in `attrs` and `filters`
(`parse_generic_attrs_from_title`, `parse_constraints`); `None` can appear as
a dict value through `.get` defaults.  -/

inductive FVal where
  | fstr (s : Str)
  | flist (vs : List Str)
  | fnone
  deriving DecidableEq

/-- `dict.get(key)` on an association list in insertion order. -/
def getAttr (attrs : List (Str × FVal)) (key : Str) : Option FVal :=
  match attrs with
  | [] => none
  | (k, v) :: rest => if k = key then some v else getAttr rest key

/-- One optional dict entry: `if v: attrs[key] = v` for a regex result. -/
def optEntry (key : Str) (v : Option Str) : List (Str × FVal) :=
  match v with
  | some s => [(key, FVal.fstr s)]
  | none => []

/-- One optional dict entry for a token-list hit:
`if xs: attrs[key] = list(dict.fromkeys(xs))`. -/
def optListEntry (key : Str) (xs : List Str) : List (Str × FVal) :=
  match xs with
  | [] => []
  | _ => [(key, FVal.flist (firstSeen xs))]

/-- `_tokens_present(text, vocab)` (utils.py): the vocabulary words that occur
as substrings, in vocabulary order. -/
def tokensPresent (t : Str) (vocab : List Str) : List Str :=
  vocab.filter (fun v => substr v t)

/-- `CPU_TOKENS` (utils.py). -/
def CPU_TOKENS : List Str :=
  ["i3".data, "i5".data, "i7".data, "i9".data,
   "ryzen 3".data, "ryzen 5".data, "ryzen 7".data, "ryzen 9".data,
   "m1".data, "m2".data, "m3".data, "m4".data,
   "celeron".data, "pentium".data, "mediatek".data, "snapdragon".data,
   "exynos".data, "dimensity".data, "helio".data]

/-- `PANEL_TOKENS` (utils.py). -/
def PANEL_TOKENS : List Str :=
  ["oled".data, "amoled".data, "ips".data, "tn".data, "va".data, "fhd".data,
   "full hd".data, "qhd".data, "uhd".data, "4k".data, "touch".data]

/-- `MATERIAL_TOKENS` (utils.py). -/
def MATERIAL_TOKENS : List Str :=
  ["leather".data, "synthetic".data, "mesh".data, "cotton".data,
   "polyester".data, "nylon".data, "canvas".data, "suede".data,
   "stainless".data, "stainless steel".data, "steel".data, "cast iron".data,
   "aluminium".data, "aluminum".data, "ceramic".data, "glass".data,
   "bamboo".data, "wood".data, "nonstick".data, "non-stick".data]

/-- `COLOR_TOKENS` (utils.py). -/
def COLOR_TOKENS : List Str :=
  ["black".data, "white".data, "silver".data, "grey".data, "gray".data,
   "red".data, "blue".data, "green".data, "yellow".data, "pink".data,
   "purple".data, "orange".data, "gold".data, "rose".data, "beige".data,
   "brown".data, "maroon".data, "navy".data, "teal".data]

/-- `parse_generic_attrs_from_title(title)` (utils.py, lines 116-162): the
dict entries in the insertion order of the code; `storage_gb` is only
attempted when the TB pattern did not match. -/
def parse_generic_attrs_from_title (title : Str) : List (Str × FVal) :=
  let t := lowerStr title
  let ram := reSearch matchRamGB t
  let storage_tb := reSearch matchStorageTB t
  let storage_gb := match storage_tb with
    | some _ => none
    | none => reSearch matchStorageGB t
  let battery := reSearch matchBatteryMah t
  let refresh := reSearch matchRefreshHz t
  let screen := reSearch matchScreenIn t
  let size_uk := reSearch (matchSizePat "uk".data) t
  let size_us := reSearch (matchSizePat "us".data) t
  let size_eu := reSearch (matchSizePat "eu".data) t
  let lit := (reSearch matchLitre t).orElse
    (fun _ => reSearch (matchNumUnit "l".data) t)
  let watts := reSearch (matchNumUnit "w".data) t
  optEntry "ram_gb".data ram ++
  optEntry "storage_tb".data storage_tb ++
  optEntry "storage_gb".data storage_gb ++
  optEntry "battery_mah".data battery ++
  optEntry "refresh_hz".data refresh ++
  optEntry "screen_in".data screen ++
  optEntry "size_uk".data size_uk ++
  optEntry "size_us".data size_us ++
  optEntry "size_eu".data size_eu ++
  optEntry "capacity_l".data lit ++
  optEntry "watt".data watts ++
  optListEntry "cpu".data (tokensPresent t CPU_TOKENS) ++
  optListEntry "panel".data (tokensPresent t PANEL_TOKENS) ++
  optListEntry "material".data (tokensPresent t MATERIAL_TOKENS) ++
  optListEntry "color".data (tokensPresent t COLOR_TOKENS)

/-! ## Constraint parser (`agents/parser_agent.py`) -/

/-- Digits-and-commas group to the integer Python's `int` produces after the
code strips commas.  `int(float(g) * 1000)` for the under-k group is modelled
exactly as `n * 1000` (the group is a plain digit string; `float` rounding
differs only beyond 2^53, far outside any budget). -/
def digitsToNat (s : Str) : Nat :=
  s.foldl (fun acc c => acc * 10 + (c.toNat - '0'.toNat)) 0

def stripCommas (s : Str) : Str := s.filter (fun c => ¬ (c = ','))

/-- `RX_UNDER_K = under\s*(\d+)\s*k\b` (parser_agent.py, no leading `\b`). -/
def matchUnderK (_prev : Option Char) (s : Str) : Option Str :=
  match litMatch "under".data s with
  | some rest =>
    let rest1 := dropSpaces rest
    greedyDigits 1 (rest1.takeWhile Char.isDigit).length rest1 (fun r =>
      match litMatch "k".data (dropSpaces r) with
      | some rest2 => if boundaryAfter rest2 then some [] else none
      | none => none)
  | none => none

/-- `RX_BUDGET_ANY = (?:under|below|less than|<=)\s*([0-9][0-9,]*)`
(parser_agent.py): the four alternatives start with distinct characters, so at
most one can fire at a position. -/
def matchBudgetAny (_prev : Option Char) (s : Str) : Option Str :=
  let grp : Str → Option Str := fun rest =>
    match dropSpaces rest with
    | c :: cs =>
      if c.isDigit then some (c :: cs.takeWhile (fun d => d.isDigit || d = ','))
      else none
    | [] => none
  match litMatch "under".data s with
  | some rest => grp rest
  | none =>
    match litMatch "below".data s with
    | some rest => grp rest
    | none =>
      match litMatch "less than".data s with
      | some rest => grp rest
      | none =>
        match litMatch "<=".data s with
        | some rest => grp rest
        | none => none

/-- `CATEGORY_KEYWORDS` (parser_agent.py) in dict insertion order. -/
def CATEGORY_KEYWORDS : List (Str × List Str) :=
  [("electronics".data,
    ["laptop".data, "notebook".data, "ultrabook".data, "macbook".data,
     "mobile".data, "smartphone".data, "phone".data, "earbuds".data,
     "headphones".data, "camera".data, "tablet".data, "ipad".data,
     "monitor".data, "tv".data, "television".data, "router".data,
     "printer".data, "smartwatch".data, "wearable".data, "ssd".data,
     "hdd".data, "pendrive".data, "power bank".data]),
   ("fashion".data,
    ["shoes".data, "sneakers".data, "sandals".data, "heels".data,
     "loafers".data, "t-shirt".data, "shirt".data, "jeans".data,
     "kurta".data, "saree".data, "hoodie".data, "jacket".data,
     "backpack".data, "bag".data, "duffle".data, "wallet".data,
     "belt".data]),
   ("home-kitchen".data,
    ["utensils".data, "cookware".data, "pan".data, "kadhai".data,
     "frying pan".data, "pressure cooker".data, "bottle".data, "flask".data,
     "mug".data, "tiffin".data, "lunch box".data, "container".data,
     "plate".data, "nonstick".data, "non-stick".data, "induction".data,
     "stainless".data, "cutlery".data]),
   ("appliances".data,
    ["fridge".data, "refrigerator".data, "washing machine".data, "ac".data,
     "air conditioner".data, "microwave".data, "oven".data, "chimney".data,
     "cooler".data, "geyser".data, "water heater".data]),
   ("sports".data,
    ["football".data, "cricket bat".data, "bat".data, "ball".data,
     "badminton".data, "racket".data, "dumbbell".data, "treadmill".data,
     "yoga".data, "gym bag".data]),
   ("beauty".data,
    ["shampoo".data, "conditioner".data, "lotion".data, "cream".data,
     "facewash".data, "makeup".data, "lipstick".data, "perfume".data,
     "deodorant".data, "serum".data])]

/-- `BRANDS` (parser_agent.py). -/
def BRANDS : List Str :=
  ["apple".data, "samsung".data, "oneplus".data, "xiaomi".data, "redmi".data,
   "realme".data, "oppo".data, "vivo".data,
   "dell".data, "hp".data, "lenovo".data, "asus".data, "acer".data,
   "msi".data, "lg".data, "sony".data, "boat".data, "jbl".data, "noise".data,
   "canon".data, "nikon".data, "sandisk".data, "seagate".data, "wd".data,
   "western digital".data,
   "nike".data, "adidas".data, "puma".data, "reebok".data, "bata".data,
   "woodland".data, "zara".data, "h&m".data, "levis".data,
   "allen solly".data, "us polo".data, "wildcraft".data,
   "american tourister".data, "skybag".data, "safari".data,
   "prestige".data, "pigeon".data, "hawkins".data, "milton".data,
   "cello".data, "borosil".data, "butterfly".data, "vinod".data,
   "whirlpool".data, "bosch".data, "ifb".data, "voltas".data,
   "panasonic".data, "hitachi".data, "haier".data, "godrej".data]

/-- `COLORS` (parser_agent.py). -/
def COLORS : List Str :=
  ["black".data, "white".data, "silver".data, "grey".data, "gray".data,
   "red".data, "blue".data, "green".data, "yellow".data, "pink".data,
   "purple".data, "orange".data, "gold".data, "rose".data, "beige".data,
   "brown".data, "maroon".data, "navy".data, "teal".data]

/-- `MATERIALS` (parser_agent.py). -/
def MATERIALS : List Str :=
  ["leather".data, "synthetic".data, "mesh".data, "cotton".data,
   "polyester".data, "nylon".data, "canvas".data, "suede".data,
   "stainless".data, "stainless steel".data, "steel".data, "cast iron".data,
   "aluminium".data, "aluminum".data, "ceramic".data, "glass".data,
   "bamboo".data, "wood".data]

/-- The fixed bonus-token list of the keyword loop (parser_agent.py). -/
def BONUS_TOKENS : List Str :=
  ["gaming".data, "lightweight".data, "waterproof".data, "nonstick".data,
   "non-stick".data, "induction".data, "wireless".data, "bluetooth".data,
   "noise cancelling".data, "anc".data, "fast charging".data, "camera".data,
   "5g".data, "4g".data, "dual sim".data, "backlit".data, "fingerprint".data]

/-- `_contains_any(text, words)` (parser_agent.py): the vocabulary words
occurring as substrings, in vocabulary order. -/
def containsAny (text : Str) (words : List Str) : List Str :=
  words.filter (fun w => substr w text)

/-- Category inference: the first category whose keyword list has a substring
hit wins (dict iteration order). -/
def inferCategory (q : Str) : Option Str :=
  (CATEGORY_KEYWORDS.find? (fun ck => ck.2.any (fun k => substr k q))).map
    (fun ck => ck.1)

/-- The structured constraint object `parse_constraints` returns. -/
structure Constraints where
  budget : Option ℤ
  category : Option Str
  filters : List (Str × FVal)
  keywords : List Str
  deriving DecidableEq

/-- `parse_constraints(query)` (parser_agent.py, lines 100-176).  The regex
groups of the size/capacity/ram patterns are non-empty strings, so the `if x:`
guards on them coincide with `is not None`. -/
def parse_constraints (query : Str) : Constraints :=
  let q := lowerStr query
  let budget : Option ℤ :=
    match reSearch matchUnderK q with
    | some g => some ((digitsToNat g : ℤ) * 1000)
    | none =>
      match reSearch matchBudgetAny q with
      | some g => some ((digitsToNat (stripCommas g) : ℤ))
      | none => none
  let category := inferCategory q
  let brands := containsAny q BRANDS
  let colors := containsAny q COLORS
  let materials := containsAny q MATERIALS
  let size_uk := reSearch (matchSizePat "uk".data) q
  let size_us := reSearch (matchSizePat "us".data) q
  let size_eu := reSearch (matchSizePat "eu".data) q
  let capacity_l := reSearch (matchNumUnit "l".data) q
  let ram_gb := if substr "gb".data q then reSearch (matchNumUnit "gb".data) q
    else none
  let storage_tb :=
    if substr "tb".data q then reSearch (matchNumUnit "tb".data) q else none
  let storage_gb :=
    if substr "gb".data q ∧ ram_gb = none then
      reSearch (matchNumUnit "gb".data) q
    else none
  let battery_mah := reSearch matchBatteryMah q
  let keyword_bag :=
    brands ++ colors ++ materials ++
      BONUS_TOKENS.filter (fun token => substr token q)
  let filters :=
    optListEntry "brand".data brands ++
    optListEntry "color".data colors ++
    optListEntry "material".data materials ++
    optEntry "size_uk".data size_uk ++
    optEntry "size_us".data size_us ++
    optEntry "size_eu".data size_eu ++
    optEntry "capacity_l".data capacity_l ++
    optEntry "ram_gb".data ram_gb ++
    optEntry "storage_tb".data storage_tb ++
    optEntry "storage_gb".data storage_gb ++
    optEntry "battery_mah".data battery_mah
  { budget := budget, category := category, filters := filters,
    keywords := keyword_bag }

/-! ## Scoring (`services/scoring.py`) -/

/-- Python `max`/`min` on exact rationals (if-then-else form so that concrete
values reduce). -/
def maxQ (a b : ℚ) : ℚ := if a ≤ b then b else a

def minQ (a b : ℚ) : ℚ := if a ≤ b then a else b

/-- Normalized product record (`schemas.Product`). -/
structure Product where
  title : Str
  price : Option ℚ
  currency : Str
  rating : Option ℚ
  review_count : Option ℤ
  url : Str
  image : Option Str
  source : Str
  category : Option Str
  attrs : List (Str × FVal)
  raw : List (Str × FVal)
  deriving DecidableEq

/-- Python truthiness of a dict value. -/
def truthyFV : FVal → Bool
  | .fstr s => ¬ s.isEmpty
  | .flist vs => ¬ vs.isEmpty
  | .fnone => false

/-- Python `x or y or dflt` over dict lookups: the first truthy value. -/
def firstTruthy (xs : List (Option FVal)) (dflt : FVal) : FVal :=
  match xs with
  | [] => dflt
  | none :: rest => firstTruthy rest dflt
  | some v :: rest => if truthyFV v then v else firstTruthy rest dflt

/-- `_normalize_str` on a string: `str(x).strip().lower()`. -/
def normStr (s : Str) : Str := lowerStr (stripStr s)

/-- Python `str()` of a list of (quote-free) strings, as `_normalize_str`
would see it if a filter value were a list. -/
def pyReprList (vs : List Str) : Str :=
  '[' :: (List.intercalate ", ".data
    (vs.map (fun s => '\'' :: (s ++ ['\''])))) ++ [']']

/-- `_normalize_str(d.get(key))` (scoring.py lines 11-12): `""` for a missing
key or `None`, otherwise `str(value).strip().lower()`. -/
def normalizeOF : Option FVal → Str
  | none => []
  | some .fnone => []
  | some (.fstr s) => normStr s
  | some (.flist vs) => normStr (pyReprList vs)

/-- `_any_overlap` (scoring.py lines 22-27). -/
def anyOverlap (arr1 arr2 : List Str) : Bool :=
  if arr1.isEmpty || arr2.isEmpty then false
  else arr1.any (fun x => arr2.any (fun y => normStr x = normStr y))

/-- Python `float(...)` on the attribute strings the repo produces
(optionally space-padded `digits[.digits]`); `none` models the `ValueError` /
`TypeError` the code catches for anything else (lists, malformed strings). -/
def floatOfStr (s : Str) : Option ℚ :=
  let t := stripStr s
  let intPart := t.takeWhile Char.isDigit
  let rest := t.drop intPart.length
  match rest with
  | [] => if intPart.isEmpty then none else some (digitsToNat intPart)
  | '.' :: frac =>
    if frac.all Char.isDigit ∧ ¬ (intPart.isEmpty ∧ frac.isEmpty) then
      some ((digitsToNat intPart : ℚ) +
        (digitsToNat frac : ℚ) / ((10 : ℚ) ^ frac.length))
    else none
  | _ => none

def floatOfFVal : FVal → Option ℚ
  | .fstr s => floatOfStr s
  | _ => none

/-- Brand block of `attribute_match_score` (scoring.py lines 46-57), as the
pair (score increment, max_pts increment). -/
def brandSM (title : Str) (attrs filters : List (Str × FVal)) : ℚ × ℚ :=
  match getAttr filters "brand".data with
  | some (.flist bs) =>
    let prod_brands :=
      firstTruthy [getAttr attrs "brand".data, getAttr attrs "maker".data]
        (.flist [])
    let titleHit := bs.any (fun b => substr (lowerStr b) (lowerStr title))
    (match prod_brands with
     | .flist pbs =>
       if anyOverlap pbs bs then (1, 1)
       else if titleHit then (8/10, 1) else (0, 1)
     | _ => if titleHit then (8/10, 1) else (0, 1))
  | _ => (0, 0)

/-- Color block (scoring.py lines 59-65). -/
def colorSM (attrs filters : List (Str × FVal)) : ℚ × ℚ :=
  match getAttr filters "color".data with
  | some (.flist cs) =>
    (match getAttr attrs "color".data with
     | some (.flist pcs) =>
       if anyOverlap pcs cs then (1/2, 1/2) else (0, 1/2)
     | _ => (0, 1/2))
  | _ => (0, 0)

/-- Material block (scoring.py lines 67-73). -/
def materialSM (attrs filters : List (Str × FVal)) : ℚ × ℚ :=
  match getAttr filters "material".data with
  | some (.flist ms) =>
    (match getAttr attrs "material".data with
     | some (.flist pms) =>
       if anyOverlap pms ms then (6/10, 6/10) else (0, 6/10)
     | _ => (0, 6/10))
  | _ => (0, 0)

/-- One footwear-size block (scoring.py lines 76-82). -/
def sizeSM (key : Str) (pts : ℚ) (attrs filters : List (Str × FVal)) :
    ℚ × ℚ :=
  let want := normalizeOF (getAttr filters key)
  let got := normalizeOF (getAttr attrs key)
  if want.isEmpty then (0, 0)
  else if ¬ got.isEmpty ∧ want = got then (pts, pts) else (0, pts)

/-- Capacity block (scoring.py lines 84-95): `max_pts` is bumped before the
`try`, so a `float()` failure forfeits only the credit. -/
def capSM (attrs filters : List (Str × FVal)) : ℚ × ℚ :=
  match getAttr filters "capacity_l".data with
  | some v =>
    if truthyFV v then
      let sc : ℚ :=
        match floatOfFVal v with
        | none => 0
        | some want =>
          match getAttr attrs "capacity_l".data with
          | none => 0
          | some gv =>
            match floatOfFVal gv with
            | none => 0
            | some got => if |got - want| ≤ 1/2 then 6/10 else 0
      (sc, 6/10)
    else (0, 0)
  | none => (0, 0)

/-- RAM/storage/battery block (scoring.py lines 98-116): string equality
after normalization. -/
def exactSM (key : Str) (attrs filters : List (Str × FVal)) : ℚ × ℚ :=
  match getAttr filters key with
  | some v =>
    if truthyFV v then
      if normalizeOF (some v) = normalizeOF (getAttr attrs key) then
        (6/10, 6/10)
      else (0, 6/10)
    else (0, 0)
  | none => (0, 0)

/-- `attribute_match_score(p, constraints)` (scoring.py lines 30-121).  The
constraints dicts built by the repo are never empty, so the
`if not constraints` guard is not modelled separately; `if not filters` is the
`isEmpty` test. -/
def attribute_match_score (p : Product) (c : Constraints) : ℚ :=
  if c.filters.isEmpty then 0
  else
    let attrs := p.attrs
    let parts : List (ℚ × ℚ) :=
      [brandSM p.title attrs c.filters,
       colorSM attrs c.filters,
       materialSM attrs c.filters,
       sizeSM "size_uk".data (1/2) attrs c.filters,
       sizeSM "size_us".data (1/2) attrs c.filters,
       sizeSM "size_eu".data (1/2) attrs c.filters,
       capSM attrs c.filters,
       exactSM "ram_gb".data attrs c.filters,
       exactSM "storage_tb".data attrs c.filters,
       exactSM "storage_gb".data attrs c.filters,
       exactSM "battery_mah".data attrs c.filters]
    let score := (parts.map Prod.fst).sum
    let max_pts := (parts.map Prod.snd).sum
    if max_pts ≤ 0 then 0 else maxQ 0 (minQ 1 (score / max_pts))

/-- The price-fitness component of `score_product` (scoring.py lines
143-152).  `if p.price and budget:` is Python truthiness: both present AND
non-zero. -/
def priceFitness (price : Option ℚ) (budget : Option ℤ) : ℚ :=
  match price, budget with
  | some pv, some b =>
    if pv ≠ 0 ∧ b ≠ 0 then
      if pv ≤ (b : ℚ) then maxQ (1/4) (1 - pv / ((max b 1 : ℤ) : ℚ) * (6/10))
      else maxQ (1/20) (1 - (pv - (b : ℚ)) / ((max b 1 : ℤ) : ℚ) * (12/10))
    else 9/20
  | _, _ => 9/20

/-- `score_product(p, constraints, query)` (scoring.py lines 127-178),
parametrised by the external `rapidfuzz.fuzz.token_set_ratio` (`sim`, 0-100
scale) and `math.tanh` (`tanhQ`). -/
def score_product (sim : Str → Str → ℚ) (tanhQ : ℚ → ℚ) (p : Product)
    (c : Constraints) (query : Str) : ℚ :=
  let kws := c.keywords
  let s := sim (lowerStr p.title) (lowerStr query) / 100
  let price_score := priceFitness p.price c.budget
  let rating_score := (p.rating.getD 0) / 5
  let review_boost := tanhQ (((p.review_count.getD 0 : ℤ) : ℚ) / 600)
  let attr_score := attribute_match_score p c
  let title_l := lowerStr p.title
  let kw_bonus :=
    minQ (15/100)
      (((kws.filter (fun kw => substr kw title_l)).length : ℚ) * (3/100))
  let total := 30/100 * s + 30/100 * price_score + 18/100 * rating_score +
    10/100 * review_boost + 12/100 * attr_score + kw_bonus
  maxQ 0 (minQ (8/5) total)

/-- `dedup(products)` (scoring.py lines 181-189), parametrised by the
external `similar` (rapidfuzz `token_set_ratio`, 0-100): keep a listing
unless its title is `> 88`-similar to an already-kept one. -/
def dedupAux (sim : Str → Str → ℚ) (out : List Product) :
    List Product → List Product
  | [] => out
  | p :: ps =>
    if out.any (fun q => 88 < sim p.title q.title) then dedupAux sim out ps
    else dedupAux sim (out ++ [p]) ps

def dedup (sim : Str → Str → ℚ) (products : List Product) : List Product :=
  dedupAux sim [] products

/-- Stable descending insertion by a score key: the element being inserted
comes from earlier in the input, so it passes only strictly greater keys and
stops at the first equal-or-smaller one. -/
def insertDesc (key : Product → ℚ) (x : Product) :
    List Product → List Product
  | [] => [x]
  | y :: ys =>
    if key x < key y then y :: insertDesc key x ys else x :: y :: ys

/-- `scored.sort(key=lambda t: t[0], reverse=True)` (scoring.py line 198):
Python's sort is a stable descending sort; the stable sorted permutation is
unique, so this insertion sort computes the same list. -/
def sortDesc (key : Product → ℚ) : List Product → List Product
  | [] => []
  | x :: xs => insertDesc key x (sortDesc key xs)

/-- `rank_products(products, constraints, query, k)` (scoring.py lines
192-199): dedup, score, stable sort descending, truncate to `k`.  Building
`(score, product)` pairs and later dropping the scores is folded into sorting
by the score key. -/
def rank_products (sim : Str → Str → ℚ) (tanhQ : ℚ → ℚ)
    (products : List Product) (c : Constraints) (query : Str) (k : Nat) :
    List Product :=
  let items := dedup sim products
  (sortDesc (fun p => score_product sim tanhQ p c query) items).take k

/-! ## Pipeline wiring (`graph/nodes.py`, `pipelines/search_pipeline.py`) -/

/-- The constraints dict seeded by `run_pipeline` (search_pipeline.py lines
28-30): `{"budget": max_price, "keywords": []}` plus the category hint when
given; no `filters` key (`getAttr [] _ = none` models its absence). -/
def seededConstraints (max_price : Option ℤ) (category_hint : Option Str) :
    Constraints :=
  { budget := max_price, category := category_hint, filters := [],
    keywords := [] }

/-- `parser_node` (nodes.py lines 12-18):
`constraints = state.get("constraints") or parse_constraints(state["query"])`.
`pre = some c` models a state whose constraints entry is a truthy (non-empty)
dict — which the dict seeded by `run_pipeline` always is, having at least the
`budget` and `keywords` keys — and `pre = none` a state without one. -/
def parser_node (pre : Option Constraints) (query : Str) : Constraints :=
  match pre with
  | some c => c
  | none => parse_constraints query

/-! ## Helper lemmas -/

lemma clampQ (c x : ℚ) (hc : 0 ≤ c) :
    0 ≤ maxQ 0 (minQ c x) ∧ maxQ 0 (minQ c x) ≤ c := by
  unfold maxQ minQ
  by_cases h1 : c ≤ x
  · rw [if_pos h1, if_pos hc]
    exact ⟨hc, le_refl c⟩
  · rw [if_neg h1]
    by_cases h2 : (0 : ℚ) ≤ x
    · rw [if_pos h2]
      exact ⟨h2, (lt_of_not_le h1).le⟩
    · rw [if_neg h2]
      exact ⟨le_refl 0, hc⟩

lemma ams_bounds (p : Product) (c : Constraints) :
    0 ≤ attribute_match_score p c ∧ attribute_match_score p c ≤ 1 := by
  unfold attribute_match_score
  dsimp only
  split
  · exact ⟨le_refl 0, by norm_num⟩
  · split
    · exact ⟨le_refl 0, by norm_num⟩
    · exact clampQ 1 _ (by norm_num)

/-- C4: `score_product` is bounded to [0, 1.6] for every listing, constraints
object, query and every instantiation of the external similarity and tanh
functions, because the code's final line clamps the weighted total. -/
theorem score_product_bounded (sim : Str → Str → ℚ) (tanhQ : ℚ → ℚ)
    (p : Product) (c : Constraints) (query : Str) :
    0 ≤ score_product sim tanhQ p c query ∧
      score_product sim tanhQ p c query ≤ 8/5 := by
  unfold score_product
  exact clampQ (8/5) _ (by norm_num)

/-- The filter keys `attribute_match_score` ever looks at. -/
def APPLICABLE_KEYS : List Str :=
  ["brand".data, "color".data, "material".data, "size_uk".data,
   "size_us".data, "size_eu".data, "capacity_l".data, "ram_gb".data,
   "storage_tb".data, "storage_gb".data, "battery_mah".data]

/-- "The filters map is empty or contains no applicable filter key": none of
the keys the function reads is present. -/
def noApplicableFilters (filters : List (Str × FVal)) : Prop :=
  ∀ k ∈ APPLICABLE_KEYS, getAttr filters k = none

instance (filters : List (Str × FVal)) :
    Decidable (noApplicableFilters filters) :=
  inferInstanceAs (Decidable (∀ k ∈ APPLICABLE_KEYS, getAttr filters k = none))

lemma brandSM_none (t : Str) (attrs filters : List (Str × FVal))
    (h : getAttr filters "brand".data = none) :
    brandSM t attrs filters = (0, 0) := by
  unfold brandSM
  rw [h]

lemma colorSM_none (attrs filters : List (Str × FVal))
    (h : getAttr filters "color".data = none) :
    colorSM attrs filters = (0, 0) := by
  unfold colorSM
  rw [h]

lemma materialSM_none (attrs filters : List (Str × FVal))
    (h : getAttr filters "material".data = none) :
    materialSM attrs filters = (0, 0) := by
  unfold materialSM
  rw [h]

lemma sizeSM_none (key : Str) (pts : ℚ) (attrs filters : List (Str × FVal))
    (h : getAttr filters key = none) :
    sizeSM key pts attrs filters = (0, 0) := by
  unfold sizeSM
  rw [h]
  simp [normalizeOF]

lemma capSM_none (attrs filters : List (Str × FVal))
    (h : getAttr filters "capacity_l".data = none) :
    capSM attrs filters = (0, 0) := by
  unfold capSM
  rw [h]

lemma exactSM_none (key : Str) (attrs filters : List (Str × FVal))
    (h : getAttr filters key = none) :
    exactSM key attrs filters = (0, 0) := by
  unfold exactSM
  rw [h]

/-- C7: with an empty filters map, or one containing no applicable filter
key, `attribute_match_score` returns exactly 0.0 (the `max_pts <= 0` guard,
not an exception), and on every input whatsoever its result lies in [0, 1]. -/
theorem attribute_match_empty_filters (p : Product) (c : Constraints) :
    (noApplicableFilters c.filters → attribute_match_score p c = 0) ∧
      (0 ≤ attribute_match_score p c ∧ attribute_match_score p c ≤ 1) := by
  refine ⟨fun h => ?_, ams_bounds p c⟩
  have hb := h "brand".data (by decide)
  have hc := h "color".data (by decide)
  have hm := h "material".data (by decide)
  have hu := h "size_uk".data (by decide)
  have hs := h "size_us".data (by decide)
  have he := h "size_eu".data (by decide)
  have hl := h "capacity_l".data (by decide)
  have hr := h "ram_gb".data (by decide)
  have ht := h "storage_tb".data (by decide)
  have hg := h "storage_gb".data (by decide)
  have hmah := h "battery_mah".data (by decide)
  unfold attribute_match_score
  dsimp only
  rw [brandSM_none _ _ _ hb, colorSM_none _ _ hc, materialSM_none _ _ hm,
    sizeSM_none _ _ _ _ hu, sizeSM_none _ _ _ _ hs, sizeSM_none _ _ _ _ he,
    capSM_none _ _ hl, exactSM_none _ _ _ hr, exactSM_none _ _ _ ht,
    exactSM_none _ _ _ hg, exactSM_none _ _ _ hmah]
  norm_num

/-- A concrete non-empty filters map with no applicable key, and a listing
with non-trivial attrs, for `attribute_match_empty_filters`. -/
def sampleInapplicableC : Constraints :=
  { budget := some 1000, category := none,
    filters := [("warranty".data, FVal.fstr "2y".data)],
    keywords := ["nike".data] }

def sampleProduct : Product :=
  { title := "Nike Shoes UK 9".data, price := some 2500,
    currency := "INR".data, rating := some (43/10), review_count := some 800,
    url := "u".data, image := none, source := "amazon".data,
    category := none,
    attrs := [("size_uk".data, FVal.fstr "9".data),
              ("brand".data, FVal.flist ["nike".data])],
    raw := [] }

theorem attribute_match_empty_filters_witness :
    attribute_match_score sampleProduct sampleInapplicableC = 0 :=
  (attribute_match_empty_filters sampleProduct sampleInapplicableC).1
    (by decide)

/-- C5 counterexample: a listing with a known price of 0 and budget 1000.
The claim's formula for known price ≤ budget gives clamp(1 − 0·0.6, 0.25, 1)
= 1, but the code's `if p.price and budget:` treats the (known) zero price as
falsy and returns the 0.45 neutral default. -/
theorem price_fitness_zero_price_counterexample :
    priceFitness (some 0) (some 1000) = 9/20 ∧
      minQ 1 (maxQ (1/4) (1 - (0 : ℚ) / ((1000 : ℤ) : ℚ) * (6/10))) = 1 ∧
      (9/20 : ℚ) ≠ 1 := by
  refine ⟨by simp [priceFitness], ?_, by norm_num⟩
  norm_num [minQ, maxQ]

/-- C5 as amended: "known" in the code is Python truthiness, i.e. present and
non-zero.  For positive price and budget ≥ 1 the claimed formulas hold
exactly (with the under-budget ceiling 1.0 automatically satisfied, and
`max(budget, 1) = budget`); a missing OR zero price or budget yields the 0.45
neutral default. -/
theorem price_fitness_formulas (pv : ℚ) (b : ℤ) (price' : Option ℚ) :
    (0 < pv → 1 ≤ b →
      priceFitness (some pv) (some b) =
        if pv ≤ (b : ℚ) then minQ 1 (maxQ (1/4) (1 - pv / (b : ℚ) * (6/10)))
        else maxQ (1/20) (1 - (pv - (b : ℚ)) / (b : ℚ) * (12/10))) ∧
    priceFitness none (some b) = 9/20 ∧
    priceFitness price' none = 9/20 ∧
    priceFitness (some 0) (some b) = 9/20 ∧
    priceFitness (some pv) (some 0) = 9/20 := by
  constructor
  · intro hpv hb
    have hb0 : (0 : ℚ) < (b : ℚ) := by
      exact_mod_cast lt_of_lt_of_le Int.zero_lt_one hb
    have hbne : b ≠ 0 := by omega
    have hmax : max b 1 = b := max_eq_left hb
    simp only [priceFitness]
    rw [if_pos ⟨ne_of_gt hpv, hbne⟩, hmax]
    by_cases hle : pv ≤ (b : ℚ)
    · rw [if_pos hle, if_pos hle]
      have hpos : 0 < pv / (b : ℚ) * (6/10) :=
        mul_pos (div_pos hpv hb0) (by norm_num)
      have hylt : maxQ (1/4) (1 - pv / (b : ℚ) * (6/10)) < 1 := by
        unfold maxQ
        split <;> linarith
      rw [minQ, if_neg (not_le.mpr hylt)]
    · rw [if_neg hle, if_neg hle]
  · refine ⟨rfl, ?_, ?_, ?_⟩
    · cases price' <;> rfl
    · simp [priceFitness]
    · simp [priceFitness]

theorem price_fitness_formulas_witness :
    priceFitness (some 500) (some 1000) =
      if (500 : ℚ) ≤ ((1000 : ℤ) : ℚ) then
        minQ 1 (maxQ (1/4) (1 - 500 / ((1000 : ℤ) : ℚ) * (6/10)))
      else maxQ (1/20) (1 - (500 - ((1000 : ℤ) : ℚ)) / ((1000 : ℤ) : ℚ) *
        (12/10)) :=
  (price_fitness_formulas 500 1000 none).1 (by norm_num) (by norm_num)

/-- The relation "the later listing `b` is not `> 88`-similar to the earlier
kept listing `a`", which every `dedup` output satisfies pairwise. -/
def dissim (sim : Str → Str → ℚ) (a b : Product) : Prop :=
  ¬ (88 < sim b.title a.title)

lemma dedupAux_pairwise (sim : Str → Str → ℚ) (l : List Product) :
    ∀ out : List Product, List.Pairwise (dissim sim) out →
      List.Pairwise (dissim sim) (dedupAux sim out l) := by
  induction l with
  | nil => intro out h; exact h
  | cons p ps ih =>
    intro out h
    unfold dedupAux
    split
    · exact ih out h
    · rename_i hguard
      refine ih (out ++ [p]) ?_
      rw [List.pairwise_append]
      refine ⟨h, List.pairwise_singleton _ _, ?_⟩
      intro a ha b hb
      rw [List.mem_singleton] at hb
      subst hb
      have := (List.any_eq_false.mp (Bool.of_not_eq_true hguard)) a ha
      simpa [dissim] using this

lemma dedupAux_of_pairwise (sim : Str → Str → ℚ) (l : List Product) :
    ∀ out : List Product, List.Pairwise (dissim sim) (out ++ l) →
      dedupAux sim out l = out ++ l := by
  induction l with
  | nil => intro out _; simp [dedupAux]
  | cons p ps ih =>
    intro out h
    have hsep : ∀ a ∈ out, dissim sim a p := by
      intro a ha
      have := (List.pairwise_append.mp h).2.2 a ha p (List.mem_cons_self p ps)
      exact this
    have hguard : (out.any fun q => decide (88 < sim p.title q.title)) =
        false := by
      rw [List.any_eq_false]
      intro a ha
      simpa [dissim] using hsep a ha
    unfold dedupAux
    rw [hguard]
    simp only [Bool.false_eq_true, if_false]
    have hassoc : (out ++ [p]) ++ ps = out ++ p :: ps := by
      simp
    rw [ih (out ++ [p]) (by rw [hassoc]; exact h), hassoc]

/-- C6: `dedup` is idempotent for every similarity function (in particular
rapidfuzz's `token_set_ratio`): a pass over an already-deduplicated list
keeps every listing, because each kept listing was checked against exactly
the kept listings before it. -/
theorem dedup_idempotent (sim : Str → Str → ℚ) (l : List Product) :
    dedup sim (dedup sim l) = dedup sim l := by
  unfold dedup
  have hp : List.Pairwise (dissim sim) (dedupAux sim [] l) :=
    dedupAux_pairwise sim l [] List.Pairwise.nil
  have := dedupAux_of_pairwise sim (dedupAux sim [] l) [] (by simpa using hp)
  simpa using this

lemma length_insertDesc (key : Product → ℚ) (x : Product) :
    ∀ l : List Product, (insertDesc key x l).length = l.length + 1 := by
  intro l
  induction l with
  | nil => rfl
  | cons y ys ih =>
    unfold insertDesc
    split
    · simpa using ih
    · rfl

lemma length_sortDesc (key : Product → ℚ) :
    ∀ l : List Product, (sortDesc key l).length = l.length := by
  intro l
  induction l with
  | nil => rfl
  | cons x xs ih =>
    unfold sortDesc
    rw [length_insertDesc, ih]
    rfl

lemma mem_insertDesc (key : Product → ℚ) (x z : Product) :
    ∀ l : List Product, z ∈ insertDesc key x l → z = x ∨ z ∈ l := by
  intro l
  induction l with
  | nil => intro h; simpa [insertDesc] using h
  | cons y ys ih =>
    unfold insertDesc
    split
    · intro h
      rcases List.mem_cons.mp h with h | h
      · exact Or.inr (h ▸ List.mem_cons_self y ys)
      · rcases ih h with h | h
        · exact Or.inl h
        · exact Or.inr (List.mem_cons_of_mem y h)
    · intro h
      rcases List.mem_cons.mp h with h | h
      · exact Or.inl h
      · exact Or.inr h

lemma pairwise_insertDesc (key : Product → ℚ) (x : Product) :
    ∀ l : List Product, List.Pairwise (fun a b => key b ≤ key a) l →
      List.Pairwise (fun a b => key b ≤ key a) (insertDesc key x l) := by
  intro l
  induction l with
  | nil => intro _; exact List.pairwise_singleton _ _
  | cons y ys ih =>
    intro h
    rw [List.pairwise_cons] at h
    unfold insertDesc
    split
    · rename_i hlt
      rw [List.pairwise_cons]
      refine ⟨?_, ih h.2⟩
      intro z hz
      rcases mem_insertDesc key x z ys hz with hz | hz
      · exact hz ▸ le_of_lt hlt
      · exact h.1 z hz
    · rename_i hge
      rw [List.pairwise_cons]
      refine ⟨?_, List.pairwise_cons.mpr h⟩
      intro z hz
      rcases List.mem_cons.mp hz with hz | hz
      · exact hz ▸ le_of_not_lt hge
      · exact le_trans (h.1 z hz) (le_of_not_lt hge)

lemma pairwise_sortDesc (key : Product → ℚ) :
    ∀ l : List Product, List.Pairwise (fun a b => key b ≤ key a)
      (sortDesc key l) := by
  intro l
  induction l with
  | nil => exact List.Pairwise.nil
  | cons x xs ih => exact pairwise_insertDesc key x _ ih

lemma filter_insertDesc (key : Product → ℚ) (x : Product) (v : ℚ) :
    ∀ l : List Product,
      (insertDesc key x l).filter (fun a => decide (key a = v)) =
        if key x = v then x :: l.filter (fun a => decide (key a = v))
        else l.filter (fun a => decide (key a = v)) := by
  intro l
  induction l with
  | nil =>
    by_cases hx : key x = v <;> simp [insertDesc, hx]
  | cons y ys ih =>
    unfold insertDesc
    split
    · rename_i hlt
      by_cases hx : key x = v
      · have hy : ¬ (key y = v) := by
          intro hy
          rw [hx] at hlt
          rw [hy] at hlt
          exact lt_irrefl v hlt
        simp [List.filter_cons, hy, ih, hx]
      · by_cases hy : key y = v
        · simp [List.filter_cons, hy, ih, hx]
        · simp [List.filter_cons, hy, ih, hx]
    · by_cases hx : key x = v
      · simp [List.filter_cons, hx]
      · simp [List.filter_cons, hx]

lemma filter_sortDesc (key : Product → ℚ) (v : ℚ) :
    ∀ l : List Product,
      (sortDesc key l).filter (fun a => decide (key a = v)) =
        l.filter (fun a => decide (key a = v)) := by
  intro l
  induction l with
  | nil => rfl
  | cons x xs ih =>
    unfold sortDesc
    rw [filter_insertDesc]
    by_cases hx : key x = v
    · simp [List.filter_cons, hx, ih]
    · simp [List.filter_cons, hx, ih]

/-- C3: `rank_products` (for every similarity/tanh instantiation) returns
exactly `min k (count after dedup)` listings, sorted non-increasingly by
their `score_product` score, and listings of equal score appear in the same
relative order as in the deduplicated input (the output's slice at any score
is a prefix of the deduplicated input's slice at that score). -/
theorem rank_products_spec (sim : Str → Str → ℚ) (tanhQ : ℚ → ℚ)
    (products : List Product) (c : Constraints) (query : Str) (k : Nat) :
    (rank_products sim tanhQ products c query k).length =
      min k (dedup sim products).length ∧
    List.Pairwise
      (fun a b => score_product sim tanhQ b c query ≤
        score_product sim tanhQ a c query)
      (rank_products sim tanhQ products c query k) ∧
    ∀ v : ℚ, ∃ rest : List Product,
      (rank_products sim tanhQ products c query k).filter
          (fun p => decide (score_product sim tanhQ p c query = v)) ++ rest =
        (dedup sim products).filter
          (fun p => decide (score_product sim tanhQ p c query = v)) := by
  refine ⟨?_, ?_, ?_⟩
  · unfold rank_products
    rw [List.length_take, length_sortDesc]
  · unfold rank_products
    exact List.Pairwise.sublist (List.take_sublist _ _) (pairwise_sortDesc _ _)
  · intro v
    refine ⟨(List.drop k (sortDesc
      (fun p => score_product sim tanhQ p c query)
      (dedup sim products))).filter
        (fun p => decide (score_product sim tanhQ p c query = v)), ?_⟩
    unfold rank_products
    rw [← List.filter_append, List.take_append_drop, filter_sortDesc]

lemma disjoint_of_all_notMem (A B : List Str)
    (h : (A.all fun x => decide (¬ x ∈ B)) = true) : List.Disjoint A B := by
  intro a haA haB
  have := List.all_eq_true.mp h a haA
  simp only [decide_eq_true_eq] at this
  exact this haB

lemma disjoint_filter_filter {A B : List Str} (h : List.Disjoint A B)
    (f g : Str → Bool) : List.Disjoint (A.filter f) (B.filter g) :=
  fun _ haA haB =>
    h (List.mem_of_mem_filter haA) (List.mem_of_mem_filter haB)

/-- The four token sources of the keyword bag, filtered from their
vocabularies by substring presence, concatenated in code order. -/
lemma keywords_nodup_gen (q : Str) :
    (containsAny q BRANDS ++ containsAny q COLORS ++ containsAny q MATERIALS ++
      BONUS_TOKENS.filter (fun token => substr token q)).Nodup := by
  have hB : BRANDS.Nodup := by decide
  have hC : COLORS.Nodup := by decide
  have hM : MATERIALS.Nodup := by decide
  have hT : BONUS_TOKENS.Nodup := by decide
  have dBC : List.Disjoint BRANDS COLORS :=
    disjoint_of_all_notMem _ _ (by decide)
  have dBM : List.Disjoint BRANDS MATERIALS :=
    disjoint_of_all_notMem _ _ (by decide)
  have dBT : List.Disjoint BRANDS BONUS_TOKENS :=
    disjoint_of_all_notMem _ _ (by decide)
  have dCM : List.Disjoint COLORS MATERIALS :=
    disjoint_of_all_notMem _ _ (by decide)
  have dCT : List.Disjoint COLORS BONUS_TOKENS :=
    disjoint_of_all_notMem _ _ (by decide)
  have dMT : List.Disjoint MATERIALS BONUS_TOKENS :=
    disjoint_of_all_notMem _ _ (by decide)
  unfold containsAny
  refine List.Nodup.append ?_ (hT.filter _) ?_
  · refine List.Nodup.append ?_ (hM.filter _) ?_
    · exact List.Nodup.append (hB.filter _) (hC.filter _)
        (disjoint_filter_filter dBC _ _)
    · rw [List.disjoint_append_left]
      exact ⟨disjoint_filter_filter dBM _ _, disjoint_filter_filter dCM _ _⟩
  · rw [List.disjoint_append_left, List.disjoint_append_left]
    exact ⟨⟨disjoint_filter_filter dBT _ _, disjoint_filter_filter dCT _ _⟩,
      disjoint_filter_filter dMT _ _⟩

/-- C9: the keyword bag `parse_constraints` returns never contains a token
twice: each source list is a duplicate-free filter of its vocabulary, and the
brand/color/material/bonus vocabularies are pairwise disjoint. -/
theorem parse_keywords_nodup (query : Str) :
    (parse_constraints query).keywords.Nodup :=
  keywords_nodup_gen (lowerStr query)

lemma mem_optEntry (k : Str) (v : Option Str) (kv : Str × FVal)
    (h : kv ∈ optEntry k v) : kv.1 = k := by
  cases v with
  | none => simp [optEntry] at h
  | some s =>
    simp only [optEntry, List.mem_singleton] at h
    subst h
    rfl

lemma mem_optListEntry (k : Str) (xs : List Str) (kv : Str × FVal)
    (h : kv ∈ optListEntry k xs) : kv.1 = k := by
  cases xs with
  | nil => simp [optListEntry] at h
  | cons x rest =>
    simp only [optListEntry, List.mem_singleton] at h
    subst h
    rfl

lemma getAttr_eq_none_of_all_ne (key : Str) :
    ∀ l : List (Str × FVal), (∀ kv ∈ l, ¬ kv.1 = key) →
      getAttr l key = none := by
  intro l
  induction l with
  | nil => intro _; rfl
  | cons kv rest ih =>
    intro h
    obtain ⟨k1, v1⟩ := kv
    unfold getAttr
    rw [if_neg (h (k1, v1) (List.mem_cons_self _ _))]
    exact ih (fun kv' hkv' => h kv' (List.mem_cons_of_mem _ hkv'))

/-- C10: whenever the TB storage pattern matches a (lower-cased) title, the
extracted attribute map has no `storage_gb` key at all, even if a GB figure
also occurs: the code only attempts `RX_STORAGE_GB` when `RX_STORAGE_TB`
found nothing. -/
theorem storage_tb_precedence (title : Str)
    (h : reSearch matchStorageTB (lowerStr title) ≠ none) :
    getAttr (parse_generic_attrs_from_title title) "storage_gb".data =
      none := by
  obtain ⟨g, hg⟩ := Option.ne_none_iff_exists'.mp h
  unfold parse_generic_attrs_from_title
  simp only [hg]
  apply getAttr_eq_none_of_all_ne
  intro kv hkv
  simp only [List.mem_append] at hkv
  rcases hkv with ((((((((((((((hkv | hkv) | hkv) | hkv) | hkv) | hkv) |
    hkv) | hkv) | hkv) | hkv) | hkv) | hkv) | hkv) | hkv) | hkv)
  all_goals first
  | (simp only [optEntry] at hkv; exact absurd hkv (List.not_mem_nil _))
  | (rw [mem_optEntry _ _ _ hkv]; decide)
  | (rw [mem_optListEntry _ _ _ hkv]; decide)

/-- Witness: "ssd 1tb and 512gb" has both a TB match and a GB substring, yet
no `storage_gb` attribute is produced. -/
theorem storage_tb_precedence_witness :
    getAttr (parse_generic_attrs_from_title "ssd 1tb and 512gb".data)
      "storage_gb".data = none :=
  storage_tb_precedence "ssd 1tb and 512gb".data (by decide)

/-- C2: evaluating the title extractor on a title containing
"16GB RAM, 512GB storage" shows the storage figure IS double-counted from the
RAM figure: `RX_STORAGE_GB = \b(\d{2,4})\s*GB\b` already matches the
two-digit "16gb", so `attrs["storage_gb"] = "16"`, not "512". -/
theorem ram_storage_double_count :
    getAttr (parse_generic_attrs_from_title
        "dell laptop 16gb ram, 512gb storage ssd".data) "ram_gb".data =
      some (FVal.fstr "16".data) ∧
    getAttr (parse_generic_attrs_from_title
        "dell laptop 16gb ram, 512gb storage ssd".data) "storage_gb".data =
      some (FVal.fstr "16".data) ∧
    ¬ ("16".data : Str) = "512".data := by
  refine ⟨by decide, by decide, by decide⟩

/-- C8 counterexample: "laptop under 3k under 5k" contains "under 5k", but
`re.search` returns the leftmost under-k match, so the budget is 3000, not
5000 — the claim's "every query containing under 5k parses to 5000" fails. -/
theorem budget_under5k_counterexample :
    substr "under 5k".data "laptop under 3k under 5k".data = true ∧
    (parse_constraints "laptop under 3k under 5k".data).budget = some 3000 ∧
    ¬ ((3000 : ℤ) = 5000) := by
  refine ⟨by decide, by decide, by decide⟩

/-- C8 as amended: budget parsing tries `RX_UNDER_K` first — its leftmost
match `N` gives budget `N*1000` and the literal pattern is not consulted;
only if it finds nothing is `RX_BUDGET_ANY` tried, whose comma-stripped group
is the budget; if neither matches, the budget is absent.  In particular,
queries whose only budget phrase is "under 5k" parse to 5000 and
"under 4,500" (no under-k match) parses to 4500. -/
theorem budget_parsing_order (q : Str) :
    (∀ g, reSearch matchUnderK (lowerStr q) = some g →
      (parse_constraints q).budget = some ((digitsToNat g : ℤ) * 1000)) ∧
    (reSearch matchUnderK (lowerStr q) = none →
      (∀ g, reSearch matchBudgetAny (lowerStr q) = some g →
        (parse_constraints q).budget =
          some ((digitsToNat (stripCommas g) : ℤ))) ∧
      (reSearch matchBudgetAny (lowerStr q) = none →
        (parse_constraints q).budget = none)) ∧
    (parse_constraints "laptop under 5k".data).budget = some 5000 ∧
    (parse_constraints "phone under 4,500".data).budget = some 4500 := by
  refine ⟨?_, ?_, by decide, by decide⟩
  · intro g hg
    unfold parse_constraints
    simp only [hg]
  · intro hnone
    constructor
    · intro g hg
      unfold parse_constraints
      simp only [hnone, hg]
    · intro hg2
      unfold parse_constraints
      simp only [hnone, hg2]

theorem budget_parsing_order_witness :
    (parse_constraints "laptop under 5k".data).budget =
      some ((digitsToNat "5".data : ℤ) * 1000) :=
  (budget_parsing_order "laptop under 5k".data).1 "5".data (by decide)

/-- C1: when `run_pipeline` pre-seeds the constraints with a category hint,
the parser node returns the seeded dict unchanged — the caller's category is
indeed preserved, but NO gap is filled from the query: for the query
"nike shoes under 5k" the node's output keeps budget `None`, no filters and
an empty keyword bag, although `parse_constraints` would derive budget 5000,
a nike brand filter and the "nike" keyword.  The `or` in
`state.get("constraints") or parse_constraints(state["query"])` short-circuits
on the always-truthy seeded dict, contradicting `run_pipeline`'s own
docstring ("parser will still infer category") and seeding comment ("Parser
will enhance constraints (category, filters, keywords)"). -/
theorem parser_node_skips_preseeded :
    parser_node (some (seededConstraints none (some "fashion".data)))
        "nike shoes under 5k".data =
      seededConstraints none (some "fashion".data) ∧
    (seededConstraints none (some "fashion".data)).category =
      some "fashion".data ∧
    (seededConstraints none (some "fashion".data)).budget = none ∧
    (seededConstraints none (some "fashion".data)).filters = [] ∧
    (seededConstraints none (some "fashion".data)).keywords = [] ∧
    (parse_constraints "nike shoes under 5k".data).budget = some 5000 ∧
    (parse_constraints "nike shoes under 5k".data).filters =
      [("brand".data, FVal.flist ["nike".data])] ∧
    (parse_constraints "nike shoes under 5k".data).keywords =
      ["nike".data] := by
  refine ⟨rfl, rfl, rfl, rfl, rfl, by decide, by decide, by decide⟩
